import Mathlib

/-!
Shallow embedding of pyaquarium.py: the Entity data model, movement,
collision, predation, bubble emission, and the per-tick update of the
entity collection. Randomness is modelled by explicit parameters: each
probabilistic draw of the source becomes an input (a stream of bubble
rolls for update, a drawn direction, y coordinate, art choice for the
spawn functions), so that theorems quantify over every possible outcome
of the random generator. Curses color pairs are modelled as plain
numbers; the screen is irrelevant to the simulation state and omitted.
-/

/-- One entity of the aquarium, mirroring class Entity of pyaquarium.py.
The kind discriminant is the string set by the subclass constructors of
the source (fish, bubble, shark, other_creature); width and height are
computed from the art at construction and never changed afterwards. -/
structure Entity where
  x : Int
  y : Int
  art : List String
  direction : Int
  color : Nat
  width : Nat
  height : Nat
  dead : Bool
  kind : String
deriving Repr, DecidableEq

/-- Width of an art block: the maximum line length, 0 for empty art.
Mirrors the width computation in the Entity constructor:
max of the line lengths when the art is nonempty, else 0; since lengths
are nonnegative, a fold of max starting from 0 gives the same value. -/
def entityWidth (art : List String) : Nat :=
  (art.map String.length).foldl Nat.max 0

/-- The Entity constructor of the source: stores position, art,
direction and color, derives width and height from the art, starts
alive. The kind is passed explicitly here because the source sets it in
each subclass constructor right after the base constructor returns. -/
def Entity.init (x y : Int) (art : List String) (direction : Int)
    (color : Nat) (kind : String) : Entity :=
  { x := x, y := y, art := art, direction := direction, color := color,
    width := entityWidth art, height := art.length, dead := false,
    kind := kind }

/-- Entity.move of the source: add direction to x, mark dead when the
new x is below -width or above max_width. The dead flag is only ever
set, never cleared. -/
def Entity.move (e : Entity) (max_width max_height : Int) : Entity :=
  let x := e.x + e.direction
  { e with x := x,
           dead := if x < -(e.width : Int) ∨ x > max_width then true else e.dead }

/-- Bubble.move of the source: decrease y by 1, mark dead when the new
y is below 1. -/
def Bubble.move (e : Entity) (max_width max_height : Int) : Entity :=
  let y := e.y - 1
  { e with y := y, dead := if y < 1 then true else e.dead }

/-- Dynamic dispatch of the move method: Bubble overrides the base
Entity.move, every other kind inherits it. -/
def moveEntity (e : Entity) (max_width max_height : Int) : Entity :=
  if e.kind = "bubble" then Bubble.move e max_width max_height
  else Entity.move e max_width max_height

/-- Entity.collides_with of the source: strict axis-aligned
bounding-box overlap on both axes (half-open intervals, touching edges
do not collide). -/
def Entity.collides_with (e other : Entity) : Bool :=
  decide (e.x < other.x + (other.width : Int)) &&
  decide (e.x + (e.width : Int) > other.x) &&
  decide (e.y < other.y + (other.height : Int)) &&
  decide (e.y + (e.height : Int) > other.y)

/-- The Bubble constructor: art is a single one-character line chosen
at random (the choice is the artChoice parameter), direction 0, kind
bubble. -/
def Bubble.init (x y : Int) (color : Nat) (artChoice : String) : Entity :=
  Entity.init x y [artChoice] 0 color "bubble"

/-- The random draws consumed for one eligible entity in the bubble
phase of Aquarium.update: whether random.random() came in below 0.02,
the randint offset into the entity width, and the art character chosen
by the Bubble constructor. The latter two are only consulted when emit
is true, matching the conditional draws of the source. -/
structure BubbleRoll where
  emit : Bool
  offset : Int
  artChoice : String

/-- The predation inner loop of Aquarium.update for one entity: when
the entity is a fish, fold over the shark snapshot and mark the fish
dead at the first colliding shark (once dead, the not-dead guard stops
every later iteration, so the break of the source is immaterial).
Non-fish entities are untouched. -/
def predationStep (sharks : List Entity) (e : Entity) : Entity :=
  if e.kind = "fish" then
    sharks.foldl
      (fun ent s =>
        if ent.dead = false ∧ s.collides_with ent = true then
          { ent with dead := true }
        else ent) e
  else e

/-- The second loop of Aquarium.update over the already-moved entities:
each fish or other_creature consumes one bubble roll from the stream
(regardless of its dead flag, exactly as in the source, which tests
only the kind), emitting a bubble at the post-move position when the
roll says so; each fish then runs the predation loop. Returns the
processed entities in order together with the new bubbles in emission
order. -/
def processEntities (sharks : List Entity) (waterColor : Nat)
    (rolls : Nat → BubbleRoll) :
    List Entity → Nat → List Entity × List Entity
  | [], _ => ([], [])
  | e :: rest, i =>
    if e.kind = "fish" ∨ e.kind = "other_creature" then
      let r := rolls i
      let newBubbles :=
        if r.emit then [Bubble.init (e.x + r.offset) e.y waterColor r.artChoice]
        else []
      let next := processEntities sharks waterColor rolls rest (i + 1)
      (predationStep sharks e :: next.1, newBubbles ++ next.2)
    else
      let next := processEntities sharks waterColor rolls rest i
      (predationStep sharks e :: next.1, next.2)

/-- Aquarium.update of the source. The shark list of the source is a
snapshot of references taken before the move phase, and those same
objects are then moved in place; functionally this is the pre-move
filter by kind composed with the move, which (since move preserves the
kind) equals filtering the moved list. After the bubble and predation
loops the new bubbles are appended and every dead entity is dropped. -/
def updateEntities (entities : List Entity) (max_x max_y : Int)
    (rolls : Nat → BubbleRoll) (waterColor : Nat) : List Entity :=
  let sharks := (entities.filter (fun e => e.kind == "shark")).map
      (fun e => moveEntity e max_x max_y)
  let moved := entities.map (fun e => moveEntity e max_x max_y)
  let processed := processEntities sharks waterColor rolls moved 0
  (processed.1 ++ processed.2).filter (fun e => !e.dead)

/-- FISH_ART of the source: pairs of right-facing and left-facing art. -/
def FISH_ART : List (String × String) :=
  [(">((º>", "<º))><"), ("><>", "<><")]

/-- Aquarium.spawn_fish of the source. The random draws are parameters:
the chosen art pair, the direction, the y coordinate drawn from
randint(5, max_y - 5), and the color. The shape matching the direction
becomes the single art line; x starts fully off-screen on the entry
side. -/
def spawn_fish (max_x : Int) (pair : String × String) (direction : Int)
    (yDraw : Int) (color : Nat) : Entity :=
  let shape := if direction = 1 then pair.1 else pair.2
  let lines := [shape]
  let x := if direction = 1 then 0 - (shape.length : Int) else max_x
  Entity.init x yDraw lines direction color "fish"

/-- SHARK_ART[1] of the source (the left-facing shark), apostrophes and
backtick written as hex escapes. -/
def sharkArtLeft : List String :=
  ["            //|",
   "        _--~~~  ~~---__.\x27\x60//",
   "       ~-_o_)  ___----~~\\\\",
   "            \x27\\|           \x27"]

/-- The fish injected by the end-to-end scenario: x = 40, y = 10,
direction +1, with the right-facing art of the first FISH_ART pair. -/
def scenarioFish : Entity :=
  Entity.init 40 10 [">((º>"] 1 0 "fish"

/-- The shark injected by the end-to-end scenario: x = 40, y = 10,
direction -1, with the left-facing shark art. -/
def scenarioShark : Entity :=
  Entity.init 40 10 sharkArtLeft (-1) 4 "shark"

/-- A bubble-roll stream that never emits. -/
def noRolls : Nat → BubbleRoll := fun _ => ⟨false, 0, "."⟩

/-- A bubble-roll stream that always emits at offset 0 with art ".". -/
def emitRolls : Nat → BubbleRoll := fun _ => ⟨true, 0, "."⟩

/-- C3: collides_with is symmetric. -/
theorem collides_with_symm (a b : Entity) :
    a.collides_with b = b.collides_with a := by
  simp only [Entity.collides_with]
  rw [Bool.eq_iff_iff]
  simp only [Bool.and_eq_true, decide_eq_true_eq]
  omega

/-- C9: a call to move changes only the position and possibly the dead
flag; direction, art, width, height, color and kind are unchanged by
move, whichever override runs (base Entity.move or Bubble.move). -/
theorem move_frame (e : Entity) (mw mh : Int) :
    (moveEntity e mw mh).direction = e.direction
  ∧ (moveEntity e mw mh).art = e.art
  ∧ (moveEntity e mw mh).width = e.width
  ∧ (moveEntity e mw mh).height = e.height
  ∧ (moveEntity e mw mh).color = e.color
  ∧ (moveEntity e mw mh).kind = e.kind := by
  by_cases h : e.kind = "bubble" <;>
    simp [moveEntity, Entity.move, Bubble.move, h]

/-- C5: for a live horizontally-moving entity (fish, shark or
other_creature), one call to move changes x by exactly direction,
leaves y unchanged, and the entity becomes dead iff the new x is
strictly below -width or strictly above the viewport width. -/
theorem horizontal_move_spec (e : Entity) (mw mh : Int)
    (hkind : e.kind = "fish" ∨ e.kind = "shark" ∨ e.kind = "other_creature")
    (hlive : e.dead = false) :
    (moveEntity e mw mh).x = e.x + e.direction
  ∧ (moveEntity e mw mh).y = e.y
  ∧ ((moveEntity e mw mh).dead = true ↔
      (e.x + e.direction < -(e.width : Int) ∨ e.x + e.direction > mw)) := by
  have hk : ¬ e.kind = "bubble" := by
    rcases hkind with h | h | h <;> simp [h]
  by_cases hc : e.x + e.direction < -(e.width : Int) ∨ e.x + e.direction > mw <;>
    simp [moveEntity, Entity.move, hk, hlive, hc]

/-- Witness for C5 at a concrete fish. -/
theorem horizontal_move_spec_witness :
    (moveEntity (Entity.init 0 0 ["><>"] 1 0 "fish") 80 24).x
      = (Entity.init 0 0 ["><>"] 1 0 "fish").x
          + (Entity.init 0 0 ["><>"] 1 0 "fish").direction
  ∧ (moveEntity (Entity.init 0 0 ["><>"] 1 0 "fish") 80 24).y
      = (Entity.init 0 0 ["><>"] 1 0 "fish").y
  ∧ ((moveEntity (Entity.init 0 0 ["><>"] 1 0 "fish") 80 24).dead = true ↔
      ((Entity.init 0 0 ["><>"] 1 0 "fish").x
          + (Entity.init 0 0 ["><>"] 1 0 "fish").direction
          < -((Entity.init 0 0 ["><>"] 1 0 "fish").width : Int)
       ∨ (Entity.init 0 0 ["><>"] 1 0 "fish").x
          + (Entity.init 0 0 ["><>"] 1 0 "fish").direction > 80)) :=
  horizontal_move_spec (Entity.init 0 0 ["><>"] 1 0 "fish") 80 24
    (Or.inl rfl) rfl

/-- C6: each call to Bubble.move decreases y by exactly 1, leaves x
unchanged, and the bubble becomes dead iff the new y is strictly below
1; moreover a bubble created at y = 3 survives exactly two update
ticks (y = 2, then y = 1) and is removed on the third tick, where y
becomes 0, whatever the viewport and the random stream. -/
theorem bubble_move_spec (e : Entity) (mw mh : Int)
    (hkind : e.kind = "bubble") (hlive : e.dead = false)
    (x : Int) (c : Nat) (a : String) (mw2 mh2 : Int)
    (rolls : Nat → BubbleRoll) (wc : Nat) :
    ((moveEntity e mw mh).y = e.y - 1
      ∧ (moveEntity e mw mh).x = e.x
      ∧ ((moveEntity e mw mh).dead = true ↔ e.y - 1 < 1))
  ∧ (updateEntities [Bubble.init x 3 c a] mw2 mh2 rolls wc
        = [{ Bubble.init x 3 c a with y := 2 }]
    ∧ updateEntities [{ Bubble.init x 3 c a with y := 2 }] mw2 mh2 rolls wc
        = [{ Bubble.init x 3 c a with y := 1 }]
    ∧ updateEntities [{ Bubble.init x 3 c a with y := 1 }] mw2 mh2 rolls wc
        = []) := by
  constructor
  · by_cases hc : e.y - 1 < 1 <;>
      simp [moveEntity, Bubble.move, hkind, hlive, hc]
  · refine ⟨?_, ?_, ?_⟩ <;>
      simp [updateEntities, processEntities, predationStep, moveEntity,
        Bubble.move, Bubble.init, Entity.init, entityWidth]

/-- Witness for C6 at a concrete bubble. -/
theorem bubble_move_spec_witness :
    (((moveEntity (Bubble.init 7 3 0 ".") 80 24).y = (Bubble.init 7 3 0 ".").y - 1
      ∧ (moveEntity (Bubble.init 7 3 0 ".") 80 24).x = (Bubble.init 7 3 0 ".").x
      ∧ ((moveEntity (Bubble.init 7 3 0 ".") 80 24).dead = true
          ↔ (Bubble.init 7 3 0 ".").y - 1 < 1))
  ∧ (updateEntities [Bubble.init 7 3 0 "."] 80 24 noRolls 0
        = [{ Bubble.init 7 3 0 "." with y := 2 }]
    ∧ updateEntities [{ Bubble.init 7 3 0 "." with y := 2 }] 80 24 noRolls 0
        = [{ Bubble.init 7 3 0 "." with y := 1 }]
    ∧ updateEntities [{ Bubble.init 7 3 0 "." with y := 1 }] 80 24 noRolls 0
        = [])) :=
  bubble_move_spec (Bubble.init 7 3 0 ".") 80 24 rfl rfl 7 0 "." 80 24 noRolls 0

/-- C8: after update, no entity remaining in the collection has the
dead flag set: the final filter purges every entity marked dead during
the tick. -/
theorem update_purges_dead (entities : List Entity) (mw mh : Int)
    (rolls : Nat → BubbleRoll) (wc : Nat) (e : Entity)
    (hm : e ∈ updateEntities entities mw mh rolls wc) : e.dead = false := by
  simp only [updateEntities] at hm
  rw [List.mem_filter] at hm
  simpa using hm.2

/-- Witness for C8: the moved bubble that survives a concrete update is
not dead. -/
theorem update_purges_dead_witness :
    (moveEntity (Bubble.init 7 3 0 ".") 80 24).dead = false :=
  update_purges_dead [Bubble.init 7 3 0 "."] 80 24 noRolls 0
    (moveEntity (Bubble.init 7 3 0 ".") 80 24) (by decide)

/-- C4 counterexample: two entities with identical position and
identical width and height need not collide: with empty art (as the
Entity constructor permits) both width and height are 0 and
collides_with returns false even on two exactly equal entities. -/
theorem collides_identical_counterexample :
    (Entity.init 0 0 [] 1 0 "fish").collides_with
      (Entity.init 0 0 [] 1 0 "fish") = false := by decide

/-- C4 (amended): two entities with identical position and identical
positive width and height always collide; and an entity whose x is at
or beyond the other entity x plus that other entity width never
collides with it (half-open interval semantics). -/
theorem collides_identical_and_offset :
    (∀ a b : Entity, a.x = b.x → a.y = b.y → a.width = b.width →
      a.height = b.height → 0 < a.width → 0 < a.height →
      a.collides_with b = true)
  ∧ (∀ a b : Entity, b.x + (b.width : Int) ≤ a.x →
      a.collides_with b = false) := by
  constructor
  · intro a b hx hy hw hh hwp hhp
    simp only [Entity.collides_with, Bool.and_eq_true, decide_eq_true_eq]
    omega
  · intro a b h
    have hn : ¬ (a.collides_with b = true) := by
      simp only [Entity.collides_with, Bool.and_eq_true, decide_eq_true_eq]
      omega
    simpa using hn

/-- Witness for the amended C4 at concrete entities. -/
theorem collides_identical_and_offset_witness :
    (Entity.init 0 0 ["ab"] 1 0 "fish").collides_with
      (Entity.init 0 0 ["ab"] 1 0 "fish") = true
  ∧ (Entity.init 12 0 ["ab"] 1 0 "fish").collides_with
      (Entity.init 0 0 ["ab"] 1 0 "fish") = false :=
  ⟨collides_identical_and_offset.1 _ _ rfl rfl rfl rfl (by decide) (by decide),
   collides_identical_and_offset.2 _ _ (by decide)⟩

/-- C7: a fish returned by spawn_fish starts fully off-screen on its
entry side (x equals -width when direction is +1 and equals the
viewport width when direction is -1) and its y is the drawn value,
inside the inclusive randint range [5, max_y - 5]. -/
theorem spawn_fish_spec (max_x max_y : Int) (pair : String × String)
    (direction yDraw : Int) (color : Nat)
    (hpair : pair ∈ FISH_ART)
    (hdir : direction = -1 ∨ direction = 1)
    (hy : 5 ≤ yDraw ∧ yDraw ≤ max_y - 5) :
    (direction = 1 →
        (spawn_fish max_x pair direction yDraw color).x
          = -((spawn_fish max_x pair direction yDraw color).width : Int))
  ∧ (direction = -1 →
        (spawn_fish max_x pair direction yDraw color).x = max_x)
  ∧ 5 ≤ (spawn_fish max_x pair direction yDraw color).y
  ∧ (spawn_fish max_x pair direction yDraw color).y ≤ max_y - 5 := by
  refine ⟨?_, ?_, ?_, ?_⟩
  · intro h; subst h
    simp [spawn_fish, Entity.init, entityWidth]
  · intro h; subst h
    simp [spawn_fish, Entity.init]
  · simpa [spawn_fish, Entity.init] using hy.1
  · simpa [spawn_fish, Entity.init] using hy.2

/-- Witness for C7 at a concrete spawn. -/
theorem spawn_fish_spec_witness :
    ((1 : Int) = 1 →
        (spawn_fish 80 (">((º>", "<º))><") 1 10 0).x
          = -((spawn_fish 80 (">((º>", "<º))><") 1 10 0).width : Int))
  ∧ ((1 : Int) = -1 →
        (spawn_fish 80 (">((º>", "<º))><") 1 10 0).x = 80)
  ∧ 5 ≤ (spawn_fish 80 (">((º>", "<º))><") 1 10 0).y
  ∧ (spawn_fish 80 (">((º>", "<º))><") 1 10 0).y ≤ 24 - 5 :=
  spawn_fish_spec 80 24 (">((º>", "<º))><") 1 10 0 (by decide)
    (Or.inr rfl) (by decide)

/-- C2 counterexample: a fish whose dead flag is set during the tick by
moving off-screen still emits a bubble that tick. The fish at x = 80
with direction +1 moves to x = 81 > 80 and dies, yet with an emitting
roll stream the updated collection contains a bubble it emitted. -/
theorem dead_fish_bubble_counterexample :
    (moveEntity (Entity.init 80 10 ["><>"] 1 0 "fish") 80 24).dead = true
  ∧ (updateEntities [Entity.init 80 10 ["><>"] 1 0 "fish"] 80 24
      emitRolls 0).any (fun e => e.kind == "bubble") = true := by decide

/-- C2 (amended): bubble-phase eligibility in update tests only the
kind and never the dead flag: every fish or other_creature at the head
of the processing list consumes its roll and, when the roll emits,
produces a bubble at its post-move position, whatever its dead flag. -/
theorem bubble_roll_ignores_dead (sharks : List Entity) (wc : Nat)
    (rolls : Nat → BubbleRoll) (e : Entity) (rest : List Entity) (i : Nat)
    (hkind : e.kind = "fish" ∨ e.kind = "other_creature")
    (hemit : (rolls i).emit = true) :
    (processEntities sharks wc rolls (e :: rest) i).2
      = Bubble.init (e.x + (rolls i).offset) e.y wc (rolls i).artChoice
          :: (processEntities sharks wc rolls rest (i + 1)).2 := by
  simp only [processEntities]
  rw [if_pos hkind]
  simp [hemit]

/-- Witness for the amended C2 at a concrete dead-by-move fish. -/
theorem bubble_roll_ignores_dead_witness :
    (processEntities [] 0 emitRolls [Entity.init 80 10 ["><>"] 1 0 "fish"] 0).2
      = Bubble.init
          ((Entity.init 80 10 ["><>"] 1 0 "fish").x + (emitRolls 0).offset)
          (Entity.init 80 10 ["><>"] 1 0 "fish").y 0 (emitRolls 0).artChoice
          :: (processEntities [] 0 emitRolls [] (0 + 1)).2 :=
  bubble_roll_ignores_dead [] 0 emitRolls
    (Entity.init 80 10 ["><>"] 1 0 "fish") [] 0 (Or.inl rfl) rfl

/-- Move preserves the kind discriminant, whichever override runs. -/
theorem moveEntity_kind (e : Entity) (mw mh : Int) :
    (moveEntity e mw mh).kind = e.kind := by
  by_cases h : e.kind = "bubble" <;>
    simp [moveEntity, Entity.move, Bubble.move, h]

/-- The entity component returned by the second update loop is exactly
the predation step applied to each moved entity in order; the bubble
bookkeeping never alters it. -/
theorem processEntities_fst (sharks : List Entity) (wc : Nat)
    (rolls : Nat → BubbleRoll) (es : List Entity) :
    ∀ i, (processEntities sharks wc rolls es i).1
      = es.map (predationStep sharks) := by
  induction es with
  | nil => intro i; rfl
  | cons e rest ih =>
    intro i
    by_cases h : e.kind = "fish" ∨ e.kind = "other_creature" <;>
      simp [processEntities, h, ih]

/-- C10: predation marks only fish dead. The predation step leaves
every non-fish entity unchanged, and consequently a shark, bubble or
other_creature leaves the collection only through its own move: when
its move keeps it alive, its moved self is still in the updated
collection. -/
theorem predation_only_fish :
    (∀ (sharks : List Entity) (e : Entity), ¬ e.kind = "fish" →
        predationStep sharks e = e)
  ∧ (∀ (entities : List Entity) (mw mh : Int) (rolls : Nat → BubbleRoll)
        (wc : Nat) (e : Entity), e ∈ entities → ¬ e.kind = "fish" →
        (moveEntity e mw mh).dead = false →
        moveEntity e mw mh ∈ updateEntities entities mw mh rolls wc) := by
  have hstep : ∀ (sharks : List Entity) (e : Entity), ¬ e.kind = "fish" →
      predationStep sharks e = e := by
    intro sharks e h
    simp [predationStep, h]
  refine ⟨hstep, ?_⟩
  intro entities mw mh rolls wc e hmem hfish hlive
  simp only [updateEntities]
  rw [List.mem_filter, List.mem_append]
  refine ⟨Or.inl ?_, by simp [hlive]⟩
  rw [processEntities_fst]
  refine List.mem_map.mpr ⟨moveEntity e mw mh, List.mem_map_of_mem _ hmem, ?_⟩
  exact hstep _ _ (by rw [moveEntity_kind]; exact hfish)

/-- Witness for C10: a bubble is untouched by predation, and a shark
that stays on screen survives a concrete update as its moved self. -/
theorem predation_only_fish_witness :
    predationStep [] (Bubble.init 7 3 0 ".") = Bubble.init 7 3 0 "."
  ∧ moveEntity scenarioShark 80 24
      ∈ updateEntities [scenarioShark] 80 24 noRolls 0 :=
  ⟨predation_only_fish.1 [] (Bubble.init 7 3 0 ".") (by decide),
   predation_only_fish.2 [scenarioShark] 80 24 noRolls 0 scenarioShark
     (by decide) (by decide) (by decide)⟩

/-- C1: in the 80 by 24 end-to-end scenario, with one fish at (40, 10)
facing right and one fully overlapping shark at (40, 10) facing left,
one update removes the fish from the collection and keeps the shark,
whatever the bubble-roll stream and water color. -/
theorem scenario_fish_eaten (rolls : Nat → BubbleRoll) (wc : Nat) :
    (updateEntities [scenarioFish, scenarioShark] 80 24 rolls wc).all
      (fun e => !(e.kind == "fish")) = true
  ∧ (updateEntities [scenarioFish, scenarioShark] 80 24 rolls wc).any
      (fun e => e.kind == "shark") = true := by
  cases hemit : (rolls 0).emit <;>
    constructor <;>
      simp +decide [updateEntities, processEntities, predationStep,
        moveEntity, Entity.move, Bubble.move, Bubble.init, Entity.init,
        entityWidth, Entity.collides_with, scenarioFish, scenarioShark,
        sharkArtLeft, hemit]
